import Mathlib

/-!
Shallow embedding of the core 2D game-engine classes of this repository
(GameObject, Transform, RigidBody, Collider, Physics, Scene, Engine) and
proofs about the behaviour their specification describes.

Numbers are modelled by `ℚ` wherever the source only adds, multiplies,
compares and takes absolute values; `Physics.resolveCollision`, which calls
`Math.sqrt`, is modelled over `ℝ`.  JavaScript `Map` objects are modelled by
insertion-ordered association lists, JavaScript `Set` objects by lists used
only through membership and insertion, and object references by ids.
-/

namespace Crt

/-! ## GameObject component map (GameObject.ts)

A component is identified by its id and its `getType()` string; `bound`
models whether its `gameObject` back-reference has been set (non-null). -/

structure Comp where
  id : String
  ctype : String
  bound : Bool
deriving DecidableEq, Repr

/-- JS `Map.has`. -/
def mapHas (m : List (String × Comp)) (k : String) : Bool :=
  m.any (fun p => p.1 == k)

/-- JS `Map.set`: replace in place if the key is present, else append. -/
def mapSet (m : List (String × Comp)) (k : String) (v : Comp) :
    List (String × Comp) :=
  match m with
  | [] => [(k, v)]
  | p :: rest => if p.1 == k then (k, v) :: rest else p :: mapSet rest k v

/-- JS `Map.get`. -/
def mapGet (m : List (String × Comp)) (k : String) : Option Comp :=
  (m.find? (fun p => p.1 == k)).map (fun p => p.2)

/-- JS `Map.delete`. -/
def mapDelete (m : List (String × Comp)) (k : String) :
    List (String × Comp) :=
  m.filter (fun p => p.1 != k)

structure GameObject where
  id : String
  name : String
  tag : String
  isActive : Bool
  components : List (String × Comp)
deriving DecidableEq, Repr

/-- `GameObject.addComponent`: reject a duplicate non-Script variant
(returning the argument unchanged), otherwise set the component's
`gameObject` reference (`bound := true`) and store it under its type key
(`"Script_" ++ id` for scripts).  Returns the updated object and the value
the method returns. -/
def GameObject.addComponent (g : GameObject) (c : Comp) :
    GameObject × Comp :=
  if c.ctype != "Script" && mapHas g.components c.ctype then
    (g, c)
  else
    let c' : Comp := { c with bound := true }
    let key := if c.ctype == "Script" then c.ctype ++ "_" ++ c.id else c.ctype
    ({ g with components := mapSet g.components key c' }, c')

/-- `GameObject.removeComponent`.  The returned list holds the ids of the
components on which `onDestroy` was invoked. -/
def GameObject.removeComponent (g : GameObject) (ctype : String)
    (cid : Option String := none) : GameObject × Bool × List String :=
  if ctype == "Transform" then
    (g, false, [])
  else if ctype != "Script" then
    match mapGet g.components ctype with
    | some c => ({ g with components := mapDelete g.components ctype }, true, [c.id])
    | none => (g, false, [])
  else
    match cid with
    | none => (g, false, [])
    | some i =>
      let key := ctype ++ "_" ++ i
      match mapGet g.components key with
      | some c => ({ g with components := mapDelete g.components key }, true, [c.id])
      | none => (g, false, [])

/-- The `GameObject` constructor: empty component map, then
`addComponent(new Transform())`; `tid` is the fresh Transform's UUID. -/
def GameObject.mkNew (gid name tag tid : String) : GameObject :=
  (GameObject.addComponent
    { id := gid, name := name, tag := tag, isActive := true, components := [] }
    { id := tid, ctype := "Transform", bound := false }).1

/-- Number of map entries stored under the key `"Transform"`. -/
def GameObject.transformCount (g : GameObject) : Nat :=
  (g.components.filter (fun p => p.1 == "Transform")).length

/-! ## Transform (components/Transform.ts) -/

/-- JavaScript's `%` operator: remainder with the sign of the dividend
(`a - b * trunc (a / b)`, truncation toward zero). -/
def jsMod (a b : ℚ) : ℚ :=
  a - b * (if 0 ≤ a / b then (⌊a / b⌋ : ℚ) else (⌈a / b⌉ : ℚ))

structure TransformQ where
  position : ℚ × ℚ
  rotation : ℚ
  scale : ℚ × ℚ
deriving DecidableEq, Repr

/-- The `Transform` constructor. -/
def TransformQ.mkNew : TransformQ :=
  { position := (0, 0), rotation := 0, scale := (1, 1) }

/-- `Transform.rotate`: `this.rotation = (this.rotation + angle) % 360`. -/
def TransformQ.rotate (t : TransformQ) (angle : ℚ) : TransformQ :=
  { t with rotation := jsMod (t.rotation + angle) 360 }

/-- `Transform.setRotation`: `this.rotation = angle % 360`. -/
def TransformQ.setRotation (t : TransformQ) (angle : ℚ) : TransformQ :=
  { t with rotation := jsMod angle 360 }

/-! ## RigidBody (components/RigidBody.ts) -/

structure RigidBodyQ where
  velocity : ℚ × ℚ
  acceleration : ℚ × ℚ
  mass : ℚ
  drag : ℚ
  useGravity : Bool
  isKinematic : Bool
  freezeRotation : Bool
  gravityScale : ℚ
  transform : Option TransformQ
deriving DecidableEq, Repr

/-- `RigidBody.update`: early return when the cached transform is null or
the body is kinematic; otherwise accumulate gravity into the acceleration,
integrate velocity, apply drag, integrate the owner's position (through the
cached transform) and reset the acceleration. -/
def RigidBodyQ.update (rb : RigidBodyQ) (deltaTime : ℚ) : RigidBodyQ :=
  match rb.transform with
  | none => rb
  | some t =>
    if rb.isKinematic then rb
    else
      let acc : ℚ × ℚ :=
        if rb.useGravity then
          (rb.acceleration.1, rb.acceleration.2 + (49/5) * rb.gravityScale)
        else rb.acceleration
      let vel : ℚ × ℚ :=
        (rb.velocity.1 + acc.1 * deltaTime, rb.velocity.2 + acc.2 * deltaTime)
      let vel : ℚ × ℚ :=
        (vel.1 * (1 - rb.drag * deltaTime), vel.2 * (1 - rb.drag * deltaTime))
      let t' : TransformQ :=
        { t with position :=
            (t.position.1 + vel.1 * deltaTime, t.position.2 + vel.2 * deltaTime) }
      { rb with velocity := vel, acceleration := (0, 0), transform := some t' }

/-! ## Collider (components/Collider.ts) and Physics (physics/Physics.ts)

`PCollider.transform` is the `Transform.position` cached by
`Collider.awake` (null until `awake` ran); `gameObject` is the owning
entity's back-reference, carrying the data `Physics.notifyScripts` reads
(the ids of the owner's Script components, in insertion order). -/

inductive ColliderType where
  | box
  | circle
deriving DecidableEq, Repr

structure POwner where
  oid : String
  scripts : List String
deriving DecidableEq, Repr

structure PCollider where
  id : String
  gameObject : Option POwner
  ctype : ColliderType
  width : ℚ
  height : ℚ
  radius : ℚ
  offset : ℚ × ℚ
  isTrigger : Bool
  transform : Option (ℚ × ℚ)
deriving DecidableEq, Repr

/-- `Collider.intersects`.  The circle×circle branch of the source compares
`sqrt (dx² + dy²) < rA + rB`; over `ℚ` this is transcribed by the equivalent
square-compare `0 < rA + rB ∧ dx² + dy² < (rA + rB)²` (a nonnegative
distance is below a bound iff the bound is positive and the squares
compare).  The box×circle branch already compares squared distances in the
source. -/
def PCollider.intersects (a b : PCollider) : Bool :=
  match a.transform, b.transform with
  | some ta, some tb =>
    let pA : ℚ × ℚ := (ta.1 + a.offset.1, ta.2 + a.offset.2)
    let pB : ℚ × ℚ := (tb.1 + b.offset.1, tb.2 + b.offset.2)
    match a.ctype, b.ctype with
    | .box, .box =>
      decide (|pA.1 - pB.1| < a.width / 2 + b.width / 2) &&
      decide (|pA.2 - pB.2| < a.height / 2 + b.height / 2)
    | .circle, .circle =>
      let d2 := (pA.1 - pB.1) ^ 2 + (pA.2 - pB.2) ^ 2
      decide (0 < a.radius + b.radius) && decide (d2 < (a.radius + b.radius) ^ 2)
    | .box, .circle => boxCircle pA a.width a.height pB b.radius
    | .circle, .box => boxCircle pB b.width b.height pA a.radius
  | _, _ => false
where
  /-- `Collider.boxCircleIntersection`: squared distance from the circle
  center to the closest point on the box, compared with the squared radius. -/
  boxCircle (boxPos : ℚ × ℚ) (boxWidth boxHeight : ℚ) (circlePos : ℚ × ℚ)
      (circleRadius : ℚ) : Bool :=
    let closestX := max (boxPos.1 - boxWidth / 2) (min circlePos.1 (boxPos.1 + boxWidth / 2))
    let closestY := max (boxPos.2 - boxHeight / 2) (min circlePos.2 (boxPos.2 + boxHeight / 2))
    let dx := circlePos.1 - closestX
    let dy := circlePos.2 - closestY
    decide (dx * dx + dy * dy < circleRadius * circleRadius)

/-- The view of a game object that `Physics.detectCollisions` reads:
its `isActive` flag and its (optional) Collider component. -/
structure PGameObject where
  isActive : Bool
  collider : Option PCollider
deriving DecidableEq, Repr

inductive PhysEventKind where
  | collisionEnter
  | collisionExit
  | triggerEnter
  | triggerExit
deriving DecidableEq, Repr

/-- One notification delivered by `Physics.notifyScripts`: the receiving
Script component's id, the callback invoked, and the other collider's id. -/
structure PhysEvent where
  script : String
  kind : PhysEventKind
  other : String
deriving DecidableEq, Repr

/-- `Physics.getCollisionPairId`: the two collider ids joined by `'_'`,
smaller id first. -/
def getCollisionPairId (a b : PCollider) : String :=
  if a.id < b.id then a.id ++ "_" ++ b.id else b.id ++ "_" ++ a.id

/-- `Physics.notifyScripts`: one callback invocation per Script component
of the owner. -/
def notifyScripts (owner : POwner) (kind : PhysEventKind) (other : PCollider) :
    List PhysEvent :=
  owner.scripts.map (fun s => { script := s, kind := kind, other := other.id })

/-- `Physics.handleCollisionEnter`: trigger events when either collider is
a trigger, collision events otherwise, delivered to both owners. -/
def handleCollisionEnter (a b : PCollider) : List PhysEvent :=
  match a.gameObject, b.gameObject with
  | some oA, some oB =>
    if a.isTrigger || b.isTrigger then
      notifyScripts oA .triggerEnter b ++ notifyScripts oB .triggerEnter a
    else
      notifyScripts oA .collisionEnter b ++ notifyScripts oB .collisionEnter a
  | _, _ => []

/-- `Physics.handleCollisionExit`. -/
def handleCollisionExit (a b : PCollider) : List PhysEvent :=
  match a.gameObject, b.gameObject with
  | some oA, some oB =>
    if a.isTrigger || b.isTrigger then
      notifyScripts oA .triggerExit b ++ notifyScripts oB .triggerExit a
    else
      notifyScripts oA .collisionExit b ++ notifyScripts oB .collisionExit a
  | _, _ => []

/-- The segment of a character list before the first `'_'` and the rest. -/
def splitUnderscore : List Char → List Char × List Char
  | [] => ([], [])
  | c :: cs =>
    if c = '_' then ([], cs)
    else
      let r := splitUnderscore cs
      (c :: r.1, r.2)

/-- `pairId.split('_')` destructured into its first two segments
(`const [idA, idB] = pairId.split('_')`). -/
def splitPairId (s : String) : String × String :=
  let r := splitUnderscore s.data
  let r2 := splitUnderscore r.2
  (String.mk r.1, String.mk r2.1)

/-- Broad phase of `Physics.detectCollisions`: the Colliders of the active
game objects, in order. -/
def collectColliders (gameObjects : List PGameObject) : List PCollider :=
  gameObjects.filterMap (fun g => if g.isActive then g.collider else none)

/-- The unordered pairs `(i, j)`, `i < j`, in the nested-loop order of
`Physics.detectCollisions`. -/
def collectPairs : List PCollider → List (PCollider × PCollider)
  | [] => []
  | c :: rest => rest.map (fun d => (c, d)) ++ collectPairs rest

/-- The exit-phase body of `Physics.detectCollisions` for one ended pair
id: split the id, look both colliders up in the current collider list, and
dispatch exit events only when both are found. -/
def exitEventsFor (colliders : List PCollider) (pid : String) : List PhysEvent :=
  let ids := splitPairId pid
  match colliders.find? (fun c => c.id == ids.1),
        colliders.find? (fun c => c.id == ids.2) with
  | some ca, some cb => handleCollisionExit ca cb
  | _, _ => []

/-- The body of the nested pair loop of `Physics.detectCollisions`: skip a
pair whose colliders have a null game object; on intersection record the
pair id and, when the pair is new relative to the previous tick's set,
dispatch enter events. -/
def pairStep (lastCollisions : List String)
    (acc : List String × List PhysEvent) (p : PCollider × PCollider) :
    List String × List PhysEvent :=
  match p.1.gameObject, p.2.gameObject with
  | some _, some _ =>
    let pid := getCollisionPairId p.1 p.2
    if p.1.intersects p.2 then
      (acc.1 ++ [pid],
       acc.2 ++ (if lastCollisions.contains pid then []
                 else handleCollisionEnter p.1 p.2))
    else acc
  | _, _ => acc

/-- `Physics.detectCollisions`: returns the new `lastCollisions` set (the
pair ids intersecting this tick, in discovery order) together with the
events dispatched to scripts (enter events during the pair loop, then exit
events for pairs of the previous set absent from the current one).
`Physics.resolveCollision` — invoked in the pair loop when neither collider
is a trigger — only displaces transforms and velocities and is modelled
separately below; it does not touch the pair set or dispatch events. -/
def detectCollisions (lastCollisions : List String)
    (gameObjects : List PGameObject) : List String × List PhysEvent :=
  let colliders := collectColliders gameObjects
  let step := (collectPairs colliders).foldl (pairStep lastCollisions) ([], [])
  let exits :=
    lastCollisions.foldl
      (fun evs pid =>
        evs ++ (if step.1.contains pid then [] else exitEventsFor colliders pid))
      []
  (step.1, step.2 ++ exits)

/-- `Physics.update`: `updateRigidBodies` is a no-op in the source (the
integration lives in `RigidBody.update`), so the physics tick is collision
detection; the state it carries across ticks is `lastCollisions`.  The
`gameObjects` parameter defaults to the empty array, exactly as in the
source signature `update(deltaTime, gameObjects = [])`. -/
def PhysicsUpdate (lastCollisions : List String) (_deltaTime : ℚ)
    (gameObjects : List PGameObject := []) : List String × List PhysEvent :=
  detectCollisions lastCollisions gameObjects

/-! ## Scene (Scene.ts) and Engine (Engine.ts)

Scenes are JavaScript objects held by reference; `sid` models that
reference identity (`scenes.includes(scene)` compares references).  The
lifecycle calls a scene propagates to its game objects are recorded as
counters (`awakeCount`, `startCount`, `stopCount`, `updateCount`); their
per-entity effects are not needed by the claims below. -/

structure SceneE where
  sid : String
  name : String
  gameObjects : List PGameObject
  isRunning : Bool
  awakeCount : Nat
  startCount : Nat
  stopCount : Nat
  updateCount : Nat
deriving DecidableEq, Repr

/-- `Scene.awake`. -/
def SceneE.awake (s : SceneE) : SceneE :=
  { s with awakeCount := s.awakeCount + 1 }

/-- `Scene.start`: sets the running flag and starts the game objects. -/
def SceneE.start (s : SceneE) : SceneE :=
  { s with isRunning := true, startCount := s.startCount + 1 }

/-- `Scene.stop`: clears the running flag and stops the game objects. -/
def SceneE.stop (s : SceneE) : SceneE :=
  { s with isRunning := false, stopCount := s.stopCount + 1 }

/-- `Scene.update`: a no-op unless the scene is running. -/
def SceneE.update (s : SceneE) (_deltaTime : ℚ) : SceneE :=
  if s.isRunning then { s with updateCount := s.updateCount + 1 } else s

structure EngineM where
  scenes : List SceneE
  currentScene : Option String
  isRunning : Bool
  lastFrameTime : ℚ
  physicsLast : List String
  animationFrameId : Option Nat
deriving DecidableEq, Repr

/-- The `Engine` constructor. -/
def EngineM.mkNew : EngineM :=
  { scenes := [], currentScene := none, isRunning := false,
    lastFrameTime := 0, physicsLast := [], animationFrameId := none }

/-- Apply `f` to the scene the reference `sid` designates. -/
def EngineM.mutScene (e : EngineM) (sid : String) (f : SceneE → SceneE) : EngineM :=
  { e with scenes := e.scenes.map (fun s => if s.sid == sid then f s else s) }

def EngineM.findScene (e : EngineM) (sid : String) : Option SceneE :=
  e.scenes.find? (fun s => s.sid == sid)

/-- `Engine.stop`: clears the running flag, cancels the scheduled frame,
and stops the current scene when there is one.  Idempotent. -/
def EngineM.stop (e : EngineM) : EngineM :=
  let e := { e with isRunning := false, animationFrameId := none }
  match e.currentScene with
  | some sid => e.mutScene sid SceneE.stop
  | none => e

/-- `Engine.start` (`now` is `performance.now()`): no-op when already
running; otherwise set the running flag and the frame timestamp, then
start the current scene and schedule the loop — or log and clear the flag
when no scene is loaded. -/
def EngineM.start (e : EngineM) (now : ℚ) : EngineM :=
  if e.isRunning then e
  else
    let e := { e with isRunning := true, lastFrameTime := now }
    match e.currentScene with
    | some sid =>
      let e := e.mutScene sid SceneE.start
      { e with animationFrameId := some 0 }
    | none => { e with isRunning := false }

/-- `Engine.loadScene`: stop first when running with a current scene, swap
the current-scene reference, register the scene if it is new, call its
`awake`, and re-enter `start` when the running flag is still set. -/
def EngineM.loadScene (e : EngineM) (scene : SceneE) (now : ℚ) : EngineM :=
  let e := if e.isRunning && e.currentScene.isSome then e.stop else e
  let e := { e with currentScene := some scene.sid }
  let e :=
    if e.scenes.any (fun s => s.sid == scene.sid) then e
    else { e with scenes := e.scenes ++ [scene] }
  let e := e.mutScene scene.sid SceneE.awake
  if e.isRunning then e.start now else e

/-- One run of `Engine.gameLoop` together with the physics events it
dispatched. -/
structure TickResult where
  engine : EngineM
  events : List PhysEvent
deriving Repr

/-- `Engine.gameLoop` (`now` is `performance.now()`): early return unless
running with a current scene; compute `deltaTime` from the wall clock, run
`this.physics.update(deltaTime)` — the source passes no second argument, so
`Physics.update` receives its default empty `gameObjects` array — then
`Scene.update(deltaTime)` on the current scene, and reschedule. -/
def EngineM.gameLoop (e : EngineM) (now : ℚ) : TickResult :=
  match e.currentScene with
  | none => ⟨e, []⟩
  | some sid =>
    if e.isRunning then
      let deltaTime := (now - e.lastFrameTime) / 1000
      let e := { e with lastFrameTime := now }
      let phys := PhysicsUpdate e.physicsLast deltaTime
      let e := { e with physicsLast := phys.1 }
      let e := e.mutScene sid (fun s => s.update deltaTime)
      ⟨{ e with animationFrameId := some 0 }, phys.2⟩
    else ⟨e, []⟩

/-! ## Physics.resolveCollision (physics/Physics.ts)

The resolver calls `Math.sqrt`, so it is modelled over `ℝ`.  The source
reads the two owners' RigidBody and Transform components; they are passed
here explicitly (`none` models a missing RigidBody).  `RBody.isKinematic`
accessed through `rb?.isKinematic` on a missing body yields `undefined`,
which is falsy — `optKinematic` reproduces that. -/

structure RTransform where
  position : ℝ × ℝ

structure RBody where
  velocity : ℝ × ℝ
  isKinematic : Bool

structure RCol where
  ctype : ColliderType
  width : ℝ
  height : ℝ
  radius : ℝ
  isTrigger : Bool

/-- `rb?.isKinematic` under JavaScript truthiness. -/
def optKinematic : Option RBody → Bool
  | some r => r.isKinematic
  | none => false

structure ResolveResult where
  tA : RTransform
  tB : RTransform
  rbA : Option RBody
  rbB : Option RBody

open Classical in
/-- `Physics.resolveCollision`: skip when neither owner has a RigidBody or
both bodies are kinematic; compute the center-to-center direction from the
owners' Transform positions and normalize it by the Euclidean distance
(skip when the distance is zero); take as push magnitude the summed radii
minus the distance (circle×circle), the smaller of the two axis overlaps
(box×box), or the constant 10 (mixed); displace only the non-kinematic
side (damping and reversing its velocity by −0.5) when one side is
kinematic, else split the push evenly and swap the velocities scaled
by 0.8. -/
noncomputable def resolveCollision (a b : RCol) (rbA rbB : Option RBody)
    (tA tB : RTransform) : ResolveResult :=
  if rbA.isNone && rbB.isNone then ⟨tA, tB, rbA, rbB⟩
  else if optKinematic rbA && optKinematic rbB then ⟨tA, tB, rbA, rbB⟩
  else
    let dx := tB.position.1 - tA.position.1
    let dy := tB.position.2 - tA.position.2
    let distance := Real.sqrt (dx * dx + dy * dy)
    if distance = 0 then ⟨tA, tB, rbA, rbB⟩
    else
      let nx := dx / distance
      let ny := dy / distance
      let mtd : ℝ :=
        if a.ctype = .circle ∧ b.ctype = .circle then
          (a.radius + b.radius) - distance
        else if a.ctype = .box ∧ b.ctype = .box then
          let overlapX := (a.width / 2 + b.width / 2) - |dx|
          let overlapY := (a.height / 2 + b.height / 2) - |dy|
          if overlapX < overlapY then overlapX else overlapY
        else 10
      if optKinematic rbA && !optKinematic rbB then
        ⟨tA, ⟨(tB.position.1 + nx * mtd, tB.position.2 + ny * mtd)⟩, rbA,
         rbB.map (fun r =>
           { r with velocity := (-r.velocity.1 * 0.5, -r.velocity.2 * 0.5) })⟩
      else if !optKinematic rbA && optKinematic rbB then
        ⟨⟨(tA.position.1 - nx * mtd, tA.position.2 - ny * mtd)⟩, tB,
         rbA.map (fun r =>
           { r with velocity := (-r.velocity.1 * 0.5, -r.velocity.2 * 0.5) }),
         rbB⟩
      else
        let tA' : RTransform :=
          ⟨(tA.position.1 - nx * mtd / 2, tA.position.2 - ny * mtd / 2)⟩
        let tB' : RTransform :=
          ⟨(tB.position.1 + nx * mtd / 2, tB.position.2 + ny * mtd / 2)⟩
        match rbA, rbB with
        | some ra, some rb =>
          ⟨tA', tB',
           some { ra with velocity := (rb.velocity.1 * 0.8, rb.velocity.2 * 0.8) },
           some { rb with velocity := (ra.velocity.1 * 0.8, ra.velocity.2 * 0.8) }⟩
        | oa, ob => ⟨tA', tB', oa, ob⟩

/-! ## Component deserialization (Transform.ts, RigidBody.ts, Collider.ts)

`deserialize` receives arbitrary parsed JSON, so its input is modelled by a
JavaScript value type: property access on a non-object yields `undefined`,
and the source guards fields either with `typeof`-checks (scalars and
flags) or with bare truthiness (`if (data.position)` …).  A `Vector2.set`
call forwards whatever values the data held, so vector slots store raw
JavaScript values. -/

inductive JVal where
  | undefined
  | jnull
  | jbool (b : Bool)
  | jnum (q : ℚ)
  | jstr (s : String)
  | jobj (fields : List (String × JVal))

/-- JavaScript truthiness (`ℚ` has no NaN, otherwise standard). -/
def JVal.truthy : JVal → Bool
  | .undefined => false
  | .jnull => false
  | .jbool b => b
  | .jnum q => q != 0
  | .jstr s => s != ""
  | .jobj _ => true

/-- Property access `v.k`: lookup on objects (`undefined` for a missing
key), `undefined` on primitive number/string/boolean receivers, and a
thrown TypeError — modelled as `none` — on `null` and `undefined`
receivers. -/
def JVal.getField : JVal → String → Option JVal
  | .jobj fields, k =>
    some (match fields.find? (fun p => p.1 == k) with
          | some p => p.2
          | none => .undefined)
  | .jnull, _ => none
  | .undefined, _ => none
  | _, _ => some .undefined

/-- `typeof v === 'number'`. -/
def JVal.isNum : JVal → Bool
  | .jnum _ => true
  | _ => false

/-- `typeof v === 'boolean'`. -/
def JVal.isBool : JVal → Bool
  | .jbool _ => true
  | _ => false

/-- The numeric value of a checked JS number (only used behind `isNum`). -/
def JVal.toQ : JVal → ℚ
  | .jnum q => q
  | _ => 0

/-- The value of a checked JS boolean (only used behind `isBool`). -/
def JVal.toB : JVal → Bool
  | .jbool b => b
  | _ => false

/-- A `Vector2` slot after arbitrary `set` calls: raw JS values. -/
structure JVec2 where
  x : JVal
  y : JVal

/-- `Vector2.set`. -/
def JVec2.setv (_v : JVec2) (x y : JVal) : JVec2 := ⟨x, y⟩

structure TransformJ where
  position : JVec2
  rotation : ℚ
  scale : JVec2

/-- `Transform.deserialize`: `position` and `scale` behind truthiness
guards, `rotation` behind a `typeof`-number guard.  Every property access
on `data` can throw (when `data` is null/undefined), aborting the whole
call — hence the `Option` result; the inner `.x`/`.y` accesses sit behind
a truthiness guard, so their receiver is never null/undefined. -/
def TransformJ.deserialize (t : TransformJ) (data : JVal) : Option TransformJ :=
  (data.getField "position").bind fun pv =>
  (if pv.truthy then
     (pv.getField "x").bind fun x =>
     (pv.getField "y").bind fun y =>
     some { t with position := t.position.setv x y }
   else some t).bind fun t1 =>
  (data.getField "rotation").bind fun rv =>
  (let t2 := if rv.isNum then { t1 with rotation := rv.toQ } else t1
   (data.getField "scale").bind fun sv =>
   if sv.truthy then
     (sv.getField "x").bind fun x =>
     (sv.getField "y").bind fun y =>
     some { t2 with scale := t2.scale.setv x y }
   else some t2)

structure RigidBodyJ where
  velocity : JVec2
  acceleration : JVec2
  mass : ℚ
  drag : ℚ
  useGravity : Bool
  isKinematic : Bool
  freezeRotation : Bool
  gravityScale : ℚ

/-- `RigidBody.deserialize`: the vectors behind truthiness guards, the
scalars behind `typeof`-number guards, the flags behind `typeof`-boolean
guards; property access on null/undefined `data` throws (`none`). -/
def RigidBodyJ.deserialize (r : RigidBodyJ) (data : JVal) : Option RigidBodyJ :=
  (data.getField "velocity").bind fun vv =>
  (if vv.truthy then
     (vv.getField "x").bind fun x =>
     (vv.getField "y").bind fun y =>
     some { r with velocity := r.velocity.setv x y }
   else some r).bind fun r1 =>
  (data.getField "acceleration").bind fun av =>
  (if av.truthy then
     (av.getField "x").bind fun x =>
     (av.getField "y").bind fun y =>
     some { r1 with acceleration := r1.acceleration.setv x y }
   else some r1).bind fun r2 =>
  (data.getField "mass").bind fun mv =>
  (let r3 := if mv.isNum then { r2 with mass := mv.toQ } else r2
   (data.getField "drag").bind fun dv =>
   let r4 := if dv.isNum then { r3 with drag := dv.toQ } else r3
   (data.getField "useGravity").bind fun gv =>
   let r5 := if gv.isBool then { r4 with useGravity := gv.toB } else r4
   (data.getField "isKinematic").bind fun kv =>
   let r6 := if kv.isBool then { r5 with isKinematic := kv.toB } else r5
   (data.getField "freezeRotation").bind fun fv =>
   let r7 := if fv.isBool then { r6 with freezeRotation := fv.toB } else r6
   (data.getField "gravityScale").bind fun gsv =>
   if gsv.isNum then some { r7 with gravityScale := gsv.toQ } else some r7)

structure ColliderJ where
  ctype : JVal
  width : ℚ
  height : ℚ
  radius : ℚ
  offset : JVec2
  isTrigger : Bool

/-- `Collider.deserialize`: `type` and `offset` behind bare truthiness
guards (`type` accepts any truthy value), the numbers behind
`typeof`-number guards, `isTrigger` behind a `typeof`-boolean guard;
property access on null/undefined `data` throws (`none`). -/
def ColliderJ.deserialize (c : ColliderJ) (data : JVal) : Option ColliderJ :=
  (data.getField "type").bind fun tv =>
  (let c1 := if tv.truthy then { c with ctype := tv } else c
   (data.getField "width").bind fun wv =>
   let c2 := if wv.isNum then { c1 with width := wv.toQ } else c1
   (data.getField "height").bind fun hv =>
   let c3 := if hv.isNum then { c2 with height := hv.toQ } else c2
   (data.getField "radius").bind fun rv =>
   let c4 := if rv.isNum then { c3 with radius := rv.toQ } else c3
   (data.getField "offset").bind fun ov =>
   (if ov.truthy then
      (ov.getField "x").bind fun x =>
      (ov.getField "y").bind fun y =>
      some { c4 with offset := c4.offset.setv x y }
    else some c4).bind fun c5 =>
   (data.getField "isTrigger").bind fun bv =>
   if bv.isBool then some { c5 with isTrigger := bv.toB } else some c5)

/-- A box collider on a live owner, as the C4/C1 scenarios build them:
no offset, not a trigger, transform cached at `pos`. -/
def mkBoxCollider (cid : String) (owner : POwner) (w h : ℚ) (pos : ℚ × ℚ) :
    PCollider :=
  { id := cid, gameObject := some owner, ctype := .box, width := w, height := h,
    radius := 50, offset := (0, 0), isTrigger := false, transform := some pos }

/-- A running scene holding two active entities with overlapping
100×100 box colliders at (0,0) and (50,0). -/
def demoScene : SceneE :=
  { sid := "s1", name := "main",
    gameObjects :=
      [⟨true, some (mkBoxCollider "cA" ⟨"goA", ["sc1"]⟩ 100 100 (0, 0))⟩,
       ⟨true, some (mkBoxCollider "cB" ⟨"goB", ["sc2"]⟩ 100 100 (50, 0))⟩],
    isRunning := true, awakeCount := 1, startCount := 1, stopCount := 0,
    updateCount := 0 }

/-- A running engine whose current scene is `demoScene`. -/
def demoEngine : EngineM :=
  { scenes := [demoScene], currentScene := some "s1", isRunning := true,
    lastFrameTime := 0, physicsLast := [], animationFrameId := some 0 }

/-- One physics tick of the C4 scenario: two active entities owning
non-trigger box colliders `cA` (scripts `sA`, size `wA`×`hA`, cached
position `pA`) and `cB` (scripts `sB`, size `wB`×`hB`, cached position
`pB`), passed to collision detection with the persistent pair set `last`. -/
def twoBoxTick (last : List String) (sA sB : List String) (wA hA wB hB : ℚ)
    (pA pB : ℚ × ℚ) : List String × List PhysEvent :=
  detectCollisions last
    [⟨true, some (mkBoxCollider "cA" ⟨"goA", sA⟩ wA hA pA)⟩,
     ⟨true, some (mkBoxCollider "cB" ⟨"goB", sB⟩ wB hB pB)⟩]

/-- The 100×100 non-trigger box collider of the C5 scenario. -/
def box100 : RCol :=
  { ctype := .box, width := 100, height := 100, radius := 50, isTrigger := false }

/-- A non-kinematic RigidBody at rest. -/
def restBody : RBody := { velocity := (0, 0), isKinematic := false }

/-- A fresh, not-yet-registered scene to load over `demoScene`. -/
def demoScene2 : SceneE :=
  { sid := "s2", name := "level2", gameObjects := [], isRunning := false,
    awakeCount := 0, startCount := 0, stopCount := 0, updateCount := 0 }

/-! ## Theorems -/

lemma jsMod360_bounds (a : ℚ) : -360 < jsMod a 360 ∧ jsMod a 360 < 360 := by
  unfold jsMod
  rcases le_or_lt 0 (a / 360) with h | h
  · rw [if_pos h]
    have h1 : (⌊a / 360⌋ : ℚ) ≤ a / 360 := Int.floor_le _
    have h2 : a / 360 < ⌊a / 360⌋ + 1 := Int.lt_floor_add_one _
    constructor <;> linarith
  · rw [if_neg (not_le.mpr h)]
    have h1 : a / 360 ≤ (⌈a / 360⌉ : ℚ) := Int.le_ceil _
    have h2 : (⌈a / 360⌉ : ℚ) < a / 360 + 1 := Int.ceil_lt_add_one _
    constructor <;> linarith

lemma jsMod360_nonneg (a : ℚ) (h : 0 ≤ a) : 0 ≤ jsMod a 360 := by
  unfold jsMod
  have h0 : 0 ≤ a / 360 := by positivity
  rw [if_pos h0]
  have h1 : (⌊a / 360⌋ : ℚ) ≤ a / 360 := Int.floor_le _
  linarith

/-- C7: a non-kinematic RigidBody with mass 1, drag 0, gravity on at scale
1, zero velocity and acceleration and a cached Transform at the origin,
updated once with deltaTime = 1, ends with velocity.y = 9.8, the cached
Transform's position.y = 9.8, and its acceleration reset to (0, 0). -/
theorem rigidBody_gravity_one_tick :
    (RigidBodyQ.update
      { velocity := (0, 0), acceleration := (0, 0), mass := 1, drag := 0,
        useGravity := true, isKinematic := false, freezeRotation := false,
        gravityScale := 1, transform := some TransformQ.mkNew } 1).velocity
        = (0, 9.8) ∧
    (RigidBodyQ.update
      { velocity := (0, 0), acceleration := (0, 0), mass := 1, drag := 0,
        useGravity := true, isKinematic := false, freezeRotation := false,
        gravityScale := 1, transform := some TransformQ.mkNew } 1).transform
        = some { position := (0, 9.8), rotation := 0, scale := (1, 1) } ∧
    (RigidBodyQ.update
      { velocity := (0, 0), acceleration := (0, 0), mass := 1, drag := 0,
        useGravity := true, isKinematic := false, freezeRotation := false,
        gravityScale := 1, transform := some TransformQ.mkNew } 1).acceleration
        = (0, 0) := by
  refine ⟨?_, ?_, ?_⟩ <;>
    simp [RigidBodyQ.update, TransformQ.mkNew, Prod.ext_iff] <;> norm_num

/-- C6 counterexample: `setRotation(-90)` stores −90, which does not lie in
[0, 360): the JavaScript `%` keeps the dividend's sign. -/
theorem transform_setRotation_neg_counterexample :
    (TransformQ.mkNew.setRotation (-90)).rotation = -90 ∧
    ¬ (0 ≤ (TransformQ.mkNew.setRotation (-90)).rotation) := by
  have h : (TransformQ.mkNew.setRotation (-90)).rotation = -90 := by
    show jsMod (-90) 360 = -90
    unfold jsMod
    rw [if_neg (by norm_num)]
    norm_num
  rw [h]
  norm_num

/-- C6 amended: after `rotate(angle)` or `setRotation(angle)` the stored
rotation lies in the open interval (−360, 360); when the value being
reduced (prior rotation + angle, resp. the angle) is nonnegative it lies
in [0, 360). -/
theorem transform_rotation_range (t : TransformQ) (a b c d : ℚ)
    (hb : 0 ≤ t.rotation + b) (hd : 0 ≤ d) :
    (-360 < (t.rotate a).rotation ∧ (t.rotate a).rotation < 360) ∧
    (-360 < (t.setRotation c).rotation ∧ (t.setRotation c).rotation < 360) ∧
    (0 ≤ (t.rotate b).rotation ∧ (t.rotate b).rotation < 360) ∧
    (0 ≤ (t.setRotation d).rotation ∧ (t.setRotation d).rotation < 360) := by
  refine ⟨jsMod360_bounds _, jsMod360_bounds _,
    ⟨jsMod360_nonneg _ hb, (jsMod360_bounds _).2⟩,
    ⟨jsMod360_nonneg _ hd, (jsMod360_bounds _).2⟩⟩

/-- Witness for the amended C6 theorem at `t = new Transform()`,
angles 30, 40, −90 and 350. -/
theorem transform_rotation_range_witness :
    0 ≤ TransformQ.mkNew.rotation + 40 ∧ 0 ≤ (350 : ℚ) ∧
    ((-360 < (TransformQ.mkNew.rotate 30).rotation ∧
      (TransformQ.mkNew.rotate 30).rotation < 360) ∧
     (-360 < (TransformQ.mkNew.setRotation (-90)).rotation ∧
      (TransformQ.mkNew.setRotation (-90)).rotation < 360) ∧
     (0 ≤ (TransformQ.mkNew.rotate 40).rotation ∧
      (TransformQ.mkNew.rotate 40).rotation < 360) ∧
     (0 ≤ (TransformQ.mkNew.setRotation 350).rotation ∧
      (TransformQ.mkNew.setRotation 350).rotation < 360)) :=
  ⟨by norm_num [TransformQ.mkNew], by norm_num,
   transform_rotation_range TransformQ.mkNew 30 40 (-90) 350
     (by norm_num [TransformQ.mkNew]) (by norm_num)⟩

lemma script_key_ne_transform (s : String) : ("Script" ++ "_" ++ s) ≠ "Transform" := by
  intro h
  have h2 : ("Script" ++ "_" ++ s).data = "Transform".data := congrArg String.data h
  rw [String.data_append, String.data_append] at h2
  have h3 : "Script".data = ['S', 'c', 'r', 'i', 'p', 't'] := rfl
  have h4 : "Transform".data = ['T', 'r', 'a', 'n', 's', 'f', 'o', 'r', 'm'] := rfl
  rw [h3, h4] at h2
  simp only [List.cons_append, List.nil_append] at h2
  injection h2 with h5 _
  exact absurd h5 (by decide)

lemma filter_mapSet_ne (m : List (String × Comp)) (k : String) (v : Comp)
    (hk : (k == "Transform") = false) :
    (mapSet m k v).filter (fun p => p.1 == "Transform") =
      m.filter (fun p => p.1 == "Transform") := by
  induction m with
  | nil => simp [mapSet, hk]
  | cons p rest ih =>
    unfold mapSet
    by_cases hp : (p.1 == k) = true
    · have hpk : p.1 = k := eq_of_beq hp
      simp [hp, List.filter_cons, hk, hpk]
    · simp [hp, List.filter_cons, ih]

lemma filter_mapDelete_ne (m : List (String × Comp)) (k : String)
    (hk : (k == "Transform") = false) :
    (mapDelete m k).filter (fun p => p.1 == "Transform") =
      m.filter (fun p => p.1 == "Transform") := by
  unfold mapDelete
  rw [List.filter_filter]
  refine List.filter_congr ?_
  intro x _
  by_cases hx : (x.1 == "Transform") = true
  · have hxT : x.1 = "Transform" := eq_of_beq hx
    have hkT : k ≠ "Transform" := by simpa using hk
    have hxk : (x.1 != k) = true := by
      rw [hxT]
      simpa [bne] using fun h => hkT h.symm
    simp [hx, hxk]
  · simp [hx]

lemma mapHas_transform_of_count (g : GameObject) (h : 1 ≤ g.transformCount) :
    mapHas g.components "Transform" = true := by
  unfold GameObject.transformCount at h
  obtain ⟨p, hp⟩ := List.exists_mem_of_length_pos h
  obtain ⟨hmem, hpred⟩ := List.mem_filter.mp hp
  exact List.any_eq_true.mpr ⟨p, hmem, hpred⟩

/-- C9: `removeComponent("Transform")` always returns `false`, leaves the
entity unchanged and calls no `onDestroy`; the constructor installs exactly
one Transform map entry; adding a second Transform is rejected; and neither
`addComponent` nor `removeComponent` (of any type / script id) ever changes
the number of Transform entries, so an entity always holds exactly one. -/
theorem transform_component_invariant (g : GameObject) (c c2 : Comp)
    (ct : String) (cid : Option String) (gid nm tg tid : String)
    (h1 : 1 ≤ g.transformCount) (hc2 : c2.ctype = "Transform") :
    g.removeComponent "Transform" = (g, false, []) ∧
    (GameObject.mkNew gid nm tg tid).transformCount = 1 ∧
    g.addComponent c2 = (g, c2) ∧
    ((g.addComponent c).1).transformCount = g.transformCount ∧
    ((g.removeComponent ct cid).1).transformCount = g.transformCount := by
  refine ⟨rfl, rfl, ?_, ?_, ?_⟩
  · unfold GameObject.addComponent
    rw [if_pos]
    rw [hc2]
    simp [mapHas_transform_of_count g h1]
  · unfold GameObject.addComponent
    by_cases hdup : (c.ctype != "Script" && mapHas g.components c.ctype) = true
    · rw [if_pos hdup]
    · rw [if_neg (by simpa using hdup)]
      unfold GameObject.transformCount
      by_cases hscript : (c.ctype == "Script") = true
      · have hkey : ((c.ctype ++ "_" ++ c.id) == "Transform") = false := by
          have := script_key_ne_transform c.id
          rw [eq_of_beq hscript]
          simpa using this
        simp only [hscript, if_pos]
        exact congrArg List.length (filter_mapSet_ne _ _ _ hkey)
      · have hne : c.ctype ≠ "Transform" := by
          intro hT
          apply hdup
          have hhas := mapHas_transform_of_count g h1
          simp [hT, hhas] at hscript ⊢
        simp only [hscript, Bool.false_eq_true, if_false]
        exact congrArg List.length (filter_mapSet_ne _ _ _ (by simpa using hne))
  · unfold GameObject.removeComponent
    by_cases hT : (ct == "Transform") = true
    · rw [if_pos hT]
    · rw [if_neg (by simpa using hT)]
      by_cases hS : (ct != "Script") = true
      · rw [if_pos hS]
        cases hget : mapGet g.components ct with
        | none => rfl
        | some cc =>
          simp only [hget]
          unfold GameObject.transformCount
          exact congrArg List.length (filter_mapDelete_ne _ _ (by simpa using hT))
      · rw [if_neg (by simpa using hS)]
        cases cid with
        | none => rfl
        | some i =>
          have hctS : ct = "Script" := by simpa [bne] using hS
          cases hget : mapGet g.components (ct ++ "_" ++ i) with
          | none => simp [hget]
          | some cc =>
            simp only [hget]
            unfold GameObject.transformCount
            refine congrArg List.length (filter_mapDelete_ne _ _ ?_)
            have := script_key_ne_transform i
            rw [hctS]
            simpa using this

/-- Witness for the C9 theorem: a freshly constructed GameObject with one
extra Collider component. -/
theorem transform_component_invariant_witness :
    1 ≤ ((GameObject.mkNew "g1" "obj" "Untagged" "t1").addComponent
          { id := "c1", ctype := "Collider", bound := false }).1.transformCount ∧
    ({ id := "t2", ctype := "Transform", bound := false } : Comp).ctype = "Transform" ∧
    (((GameObject.mkNew "g1" "obj" "Untagged" "t1").addComponent
          { id := "c1", ctype := "Collider", bound := false }).1.removeComponent
        "Transform" =
      (((GameObject.mkNew "g1" "obj" "Untagged" "t1").addComponent
          { id := "c1", ctype := "Collider", bound := false }).1, false, [])) := by
  refine ⟨by decide, rfl, ?_⟩
  exact (transform_component_invariant
    ((GameObject.mkNew "g1" "obj" "Untagged" "t1").addComponent
      { id := "c1", ctype := "Collider", bound := false }).1
    { id := "c1", ctype := "Collider", bound := false }
    { id := "t2", ctype := "Transform", bound := false }
    "Collider" none "g" "n" "t" "tt" (by decide) rfl).1

/-- C2 counterexample: on an entity already holding a Collider, adding a
second Collider leaves the original stored (exactly one instance, the new
one unbound) but returns the new component, not the existing instance. -/
theorem addComponent_duplicate_counterexample :
    (((GameObject.mkNew "g1" "obj" "Untagged" "t1").addComponent
        { id := "c1", ctype := "Collider", bound := false }).1.addComponent
        { id := "c2", ctype := "Collider", bound := false }).2 =
      { id := "c2", ctype := "Collider", bound := false } ∧
    (((GameObject.mkNew "g1" "obj" "Untagged" "t1").addComponent
        { id := "c1", ctype := "Collider", bound := false }).1.addComponent
        { id := "c2", ctype := "Collider", bound := false }).2 ≠
      { id := "c1", ctype := "Collider", bound := true } ∧
    mapGet (((GameObject.mkNew "g1" "obj" "Untagged" "t1").addComponent
        { id := "c1", ctype := "Collider", bound := false }).1.addComponent
        { id := "c2", ctype := "Collider", bound := false }).1.components
        "Collider" =
      some { id := "c1", ctype := "Collider", bound := true } := by
  refine ⟨?_, ?_, ?_⟩ <;> decide

/-- C2 amended: adding a component of an already-present non-Script variant
is a complete no-op on the entity (the single stored original instance
stays, the new component is never bound) and the call returns the new,
rejected component — the argument itself — rather than the stored one. -/
theorem addComponent_duplicate_rejected (g : GameObject) (c : Comp)
    (hns : c.ctype ≠ "Script") (hdup : mapHas g.components c.ctype = true) :
    g.addComponent c = (g, c) := by
  unfold GameObject.addComponent
  rw [if_pos]
  simp [hdup, bne_iff_ne, hns]

/-- Witness for the amended C2 theorem: the duplicate-Collider entity. -/
theorem addComponent_duplicate_rejected_witness :
    (({ id := "c2", ctype := "Collider", bound := false } : Comp).ctype ≠ "Script") ∧
    mapHas ((GameObject.mkNew "g1" "obj" "Untagged" "t1").addComponent
        { id := "c1", ctype := "Collider", bound := false }).1.components
      "Collider" = true ∧
    (((GameObject.mkNew "g1" "obj" "Untagged" "t1").addComponent
        { id := "c1", ctype := "Collider", bound := false }).1.addComponent
        { id := "c2", ctype := "Collider", bound := false }) =
      (((GameObject.mkNew "g1" "obj" "Untagged" "t1").addComponent
        { id := "c1", ctype := "Collider", bound := false }).1,
       { id := "c2", ctype := "Collider", bound := false }) :=
  ⟨by decide, by decide,
   addComponent_duplicate_rejected _ _ (by decide) (by decide)⟩

lemma exitEventsFor_nil (pid : String) : exitEventsFor [] pid = [] := rfl

lemma detectCollisions_nil (last : List String) :
    detectCollisions last [] = ([], []) := by
  have hfold : ∀ (l : List String) (acc : List PhysEvent),
      l.foldl (fun evs pid => evs ++ exitEventsFor [] pid) acc = acc := by
    intro l
    induction l with
    | nil => intro acc; rfl
    | cons p rest ih =>
      intro acc
      rw [List.foldl_cons, exitEventsFor_nil, List.append_nil]
      exact ih acc
  unfold detectCollisions
  simp [collectColliders, collectPairs, exitEventsFor_nil, hfold]

/-- C1 (bug evidence): while running with a current scene, every
`gameLoop` iteration calls `Physics.update` without the scene's game
objects — the parameter defaults to the empty array — so the physics step
dispatches no collision events and ends with an empty colliding-pair set,
no matter what colliders the active scene contains. -/
theorem gameLoop_physics_sees_no_entities (e : EngineM) (sid : String) (now : ℚ)
    (hrun : e.isRunning = true) (hcur : e.currentScene = some sid) :
    (e.gameLoop now).events = [] ∧
    (e.gameLoop now).engine.physicsLast = [] := by
  unfold EngineM.gameLoop
  rw [hcur]
  simp [hrun, PhysicsUpdate, detectCollisions_nil, EngineM.mutScene]

/-- Witness for the C1 theorem: a running engine whose current scene holds
two overlapping active box colliders, ticked at time 16. -/
theorem gameLoop_physics_sees_no_entities_witness :
    demoEngine.isRunning = true ∧ demoEngine.currentScene = some "s1" ∧
    (demoEngine.gameLoop 16).events = [] :=
  ⟨rfl, rfl, (gameLoop_physics_sees_no_entities demoEngine "s1" 16 rfl rfl).1⟩

/-- C3 (bug evidence): `loadScene` on a running engine stops the engine
(the current scene is stopped first), swaps the current-scene reference,
registers the new scene and calls its `awake` — but it never restarts: the
restart check reads the running flag that `stop()` just cleared, so the
engine ends stopped with no scheduled frame. -/
theorem loadScene_while_running_never_restarts (e : EngineM) (s : SceneE)
    (sid : String) (now : ℚ)
    (hrun : e.isRunning = true) (hcur : e.currentScene = some sid)
    (hnew : ∀ sc ∈ e.scenes, sc.sid ≠ s.sid) (hne : sid ≠ s.sid) :
    (e.loadScene s now).isRunning = false ∧
    (e.loadScene s now).animationFrameId = none ∧
    (e.loadScene s now).currentScene = some s.sid ∧
    (e.loadScene s now).findScene s.sid = some s.awake ∧
    (∀ sc ∈ (e.loadScene s now).scenes, sc.sid = sid → sc.isRunning = false) := by
  have hstop : (if e.isRunning && e.currentScene.isSome then e.stop else e)
      = e.stop := by
    rw [hrun, hcur]
    rfl
  have hE1 : e.stop =
      { scenes := e.scenes.map (fun sc => if sc.sid == sid then sc.stop else sc),
        currentScene := some sid, isRunning := false,
        lastFrameTime := e.lastFrameTime, physicsLast := e.physicsLast,
        animationFrameId := none } := by
    unfold EngineM.stop EngineM.mutScene
    dsimp only
    rw [hcur]
  have key : e.loadScene s now =
      { scenes := e.scenes.map (fun sc => if sc.sid == sid then sc.stop else sc)
          ++ [s.awake],
        currentScene := some s.sid, isRunning := false,
        lastFrameTime := e.lastFrameTime, physicsLast := e.physicsLast,
        animationFrameId := none } := by
    unfold EngineM.loadScene
    rw [hstop, hE1]
    dsimp only
    have hany : (e.scenes.map (fun sc => if sc.sid == sid then sc.stop else sc)).any
        (fun sc => sc.sid == s.sid) = false := by
      rw [List.any_eq_false]
      intro sc hsc
      obtain ⟨x, hx, rfl⟩ := List.mem_map.mp hsc
      have hxne := hnew x hx
      by_cases hb : (x.sid == sid) = true <;> simp [SceneE.stop, hb, hxne]
    rw [hany]
    simp only [Bool.false_eq_true, if_false]
    dsimp only [EngineM.mutScene]
    simp only [Bool.false_eq_true, if_false]
    have hrw : ((e.scenes.map (fun sc => if sc.sid == sid then sc.stop else sc)
          ++ [s]).map (fun sc => if sc.sid == s.sid then sc.awake else sc)) =
        e.scenes.map (fun sc => if sc.sid == sid then sc.stop else sc)
          ++ [s.awake] := by
      rw [List.map_append]
      have h1 : (e.scenes.map (fun sc => if sc.sid == sid then sc.stop else sc)).map
          (fun sc => if sc.sid == s.sid then sc.awake else sc) =
          (e.scenes.map (fun sc => if sc.sid == sid then sc.stop else sc)).map id := by
        refine List.map_congr_left ?_
        intro x hx
        obtain ⟨y, hy, rfl⟩ := List.mem_map.mp hx
        have hyne := hnew y hy
        by_cases hb : (y.sid == sid) = true <;> simp [SceneE.stop, hb, hyne]
      have h2 : ([s].map (fun sc => if sc.sid == s.sid then sc.awake else sc)) =
          [s.awake] := by
        simp
      rw [h1, List.map_id, h2]
    rw [hrw]
  refine ⟨by rw [key], by rw [key], by rw [key], ?_, ?_⟩
  · rw [key]
    unfold EngineM.findScene
    dsimp only
    have h1 : (e.scenes.map (fun sc => if sc.sid == sid then sc.stop else sc)).find?
        (fun sc => sc.sid == s.sid) = none := by
      rw [List.find?_eq_none]
      intro x hx
      obtain ⟨y, hy, rfl⟩ := List.mem_map.mp hx
      have hyne := hnew y hy
      by_cases hb : (y.sid == sid) = true <;> simp [SceneE.stop, hb, hyne]
    rw [List.find?_append, h1]
    simp [SceneE.awake]
  · intro sc hsc hsid
    rw [key] at hsc
    rcases List.mem_append.mp hsc with hmem | hmem
    · obtain ⟨x, hx, rfl⟩ := List.mem_map.mp hmem
      by_cases hb : (x.sid == sid) = true
      · simp [hb, SceneE.stop]
      · rw [if_neg (by simpa using hb)] at hsid ⊢
        exact absurd (by simpa using hsid) (by simpa using hb)
    · have : sc = s.awake := by simpa using hmem
      rw [this] at hsid
      exact absurd hsid (by simpa [SceneE.awake] using fun h => hne h.symm)

lemma collectPairs_mem {a b : PCollider} {l : List PCollider}
    (h : (a, b) ∈ collectPairs l) : a ∈ l ∧ b ∈ l := by
  induction l with
  | nil => cases h
  | cons c rest ih =>
    unfold collectPairs at h
    rcases List.mem_append.mp h with h1 | h1
    · obtain ⟨d, hd, heq⟩ := List.mem_map.mp h1
      injection heq with hca hdb
      subst hca
      subst hdb
      exact ⟨List.mem_cons_self _ _, List.mem_cons_of_mem _ hd⟩
    · obtain ⟨ha, hb⟩ := ih h1
      exact ⟨List.mem_cons_of_mem _ ha, List.mem_cons_of_mem _ hb⟩

lemma pairLoop_fst_subset (last : List String)
    (pairs : List (PCollider × PCollider)) (acc : List String × List PhysEvent)
    (pid : String) (h : pid ∈ (pairs.foldl (pairStep last) acc).1) :
    pid ∈ acc.1 ∨ ∃ p ∈ pairs, getCollisionPairId p.1 p.2 = pid := by
  induction pairs generalizing acc with
  | nil => exact Or.inl h
  | cons q rest ih =>
    rw [List.foldl_cons] at h
    rcases ih (pairStep last acc q) h with h1 | h1
    · unfold pairStep at h1
      split at h1
      · split at h1
        · rcases List.mem_append.mp h1 with h2 | h2
          · exact Or.inl h2
          · have h3 : pid = getCollisionPairId q.1 q.2 := by simpa using h2
            exact Or.inr ⟨q, List.mem_cons_self _ _, h3.symm⟩
        · exact Or.inl h1
      · exact Or.inl h1
    · obtain ⟨p, hp, hid⟩ := h1
      exact Or.inr ⟨p, List.mem_cons_of_mem _ hp, hid⟩

/-- C10: when a pair id from the previous tick's colliding set names a
collider — either one of the pair — that is no longer in the collected
collider list, the exit phase finds nothing to dispatch — the pair's exit
contribution is empty — and the pair id is nevertheless dropped from the
persistent set (the new set only ever holds ids generated by currently
collected pairs). -/
theorem stale_pair_no_exit_dispatch (last : List String)
    (gos : List PGameObject) (pid : String)
    (_hmem : pid ∈ last)
    (habs : (collectColliders gos).find?
        (fun c => c.id == (splitPairId pid).1) = none ∨
      (collectColliders gos).find?
        (fun c => c.id == (splitPairId pid).2) = none)
    (hnogen : ∀ a ∈ collectColliders gos, ∀ b ∈ collectColliders gos,
      getCollisionPairId a b ≠ pid) :
    exitEventsFor (collectColliders gos) pid = [] ∧
    pid ∉ (detectCollisions last gos).1 := by
  constructor
  · simp only [exitEventsFor]
    rcases habs with habs | habs
    · rw [habs]
    · cases h1 : (collectColliders gos).find?
          (fun c => c.id == (splitPairId pid).1) with
      | none => rfl
      | some ca => rw [habs]
  · intro hin
    unfold detectCollisions at hin
    dsimp only at hin
    rcases pairLoop_fst_subset last _ ([], []) pid hin with h1 | ⟨p, hp, hpid⟩
    · exact absurd h1 (List.not_mem_nil pid)
    · obtain ⟨ha, hb⟩ := collectPairs_mem hp
      exact hnogen p.1 ha p.2 hb hpid

/-- Witness for the C10 theorem: `cA_cB` was colliding last tick but only
an unrelated collider `cC` is collected this tick. -/
theorem stale_pair_no_exit_dispatch_witness :
    exitEventsFor
      (collectColliders [⟨true, some (mkBoxCollider "cC" ⟨"goC", ["sc3"]⟩ 100 100 (0, 0))⟩])
      "cA_cB" = [] ∧
    "cA_cB" ∉ (detectCollisions ["cA_cB"]
      [⟨true, some (mkBoxCollider "cC" ⟨"goC", ["sc3"]⟩ 100 100 (0, 0))⟩]).1 :=
  stale_pair_no_exit_dispatch ["cA_cB"] _ "cA_cB"
    (by decide) (Or.inl (by rfl))
    (by
      intro a ha b hb
      have ha2 : a = mkBoxCollider "cC" ⟨"goC", ["sc3"]⟩ 100 100 (0, 0) := by
        simpa [collectColliders] using ha
      have hb2 : b = mkBoxCollider "cC" ⟨"goC", ["sc3"]⟩ 100 100 (0, 0) := by
        simpa [collectColliders] using hb
      subst ha2
      subst hb2
      unfold getCollisionPairId mkBoxCollider
      split <;> decide)

lemma pairId_cAcB (sA sB : List String) (wA hA wB hB : ℚ) (pA pB : ℚ × ℚ) :
    getCollisionPairId (mkBoxCollider "cA" ⟨"goA", sA⟩ wA hA pA)
      (mkBoxCollider "cB" ⟨"goB", sB⟩ wB hB pB) = "cA_cB" := by
  simp only [getCollisionPairId, mkBoxCollider]
  rw [if_pos (String.lt_iff_toList_lt.mpr (by decide))]
  decide

lemma mkBoxCollider_gameObject (cid : String) (o : POwner) (w h : ℚ)
    (p : ℚ × ℚ) : (mkBoxCollider cid o w h p).gameObject = some o := rfl

lemma mkBoxCollider_id (cid : String) (o : POwner) (w h : ℚ) (p : ℚ × ℚ) :
    (mkBoxCollider cid o w h p).id = cid := rfl

lemma mkBoxCollider_isTrigger (cid : String) (o : POwner) (w h : ℚ)
    (p : ℚ × ℚ) : (mkBoxCollider cid o w h p).isTrigger = false := rfl

lemma twoBoxTick_sep_fresh (sA sB : List String) (wA hA wB hB : ℚ)
    (pA pB : ℚ × ℚ)
    (h : (mkBoxCollider "cA" ⟨"goA", sA⟩ wA hA pA).intersects
         (mkBoxCollider "cB" ⟨"goB", sB⟩ wB hB pB) = false) :
    twoBoxTick [] sA sB wA hA wB hB pA pB = ([], []) := by
  unfold twoBoxTick detectCollisions
  simp [collectColliders, collectPairs, pairStep, h, mkBoxCollider_gameObject]

lemma twoBoxTick_hit_fresh (sA sB : List String) (wA hA wB hB : ℚ)
    (pA pB : ℚ × ℚ)
    (h : (mkBoxCollider "cA" ⟨"goA", sA⟩ wA hA pA).intersects
         (mkBoxCollider "cB" ⟨"goB", sB⟩ wB hB pB) = true) :
    twoBoxTick [] sA sB wA hA wB hB pA pB =
      (["cA_cB"],
       (sA.map fun sc => ⟨sc, .collisionEnter, "cB"⟩) ++
       (sB.map fun sc => ⟨sc, .collisionEnter, "cA"⟩)) := by
  unfold twoBoxTick detectCollisions
  simp [collectColliders, collectPairs, pairStep, h, pairId_cAcB,
    mkBoxCollider_gameObject, mkBoxCollider_isTrigger, mkBoxCollider_id,
    handleCollisionEnter, notifyScripts]

lemma twoBoxTick_hit_stay (sA sB : List String) (wA hA wB hB : ℚ)
    (pA pB : ℚ × ℚ)
    (h : (mkBoxCollider "cA" ⟨"goA", sA⟩ wA hA pA).intersects
         (mkBoxCollider "cB" ⟨"goB", sB⟩ wB hB pB) = true) :
    twoBoxTick ["cA_cB"] sA sB wA hA wB hB pA pB = (["cA_cB"], []) := by
  unfold twoBoxTick detectCollisions
  simp [collectColliders, collectPairs, pairStep, h, pairId_cAcB,
    mkBoxCollider_gameObject]

lemma twoBoxTick_sep_exit (sA sB : List String) (wA hA wB hB : ℚ)
    (pA pB : ℚ × ℚ)
    (h : (mkBoxCollider "cA" ⟨"goA", sA⟩ wA hA pA).intersects
         (mkBoxCollider "cB" ⟨"goB", sB⟩ wB hB pB) = false) :
    twoBoxTick ["cA_cB"] sA sB wA hA wB hB pA pB =
      ([],
       (sA.map fun sc => ⟨sc, .collisionExit, "cB"⟩) ++
       (sB.map fun sc => ⟨sc, .collisionExit, "cA"⟩)) := by
  unfold twoBoxTick detectCollisions
  have hsplit : splitPairId "cA_cB" = ("cA", "cB") := by decide
  have hAA : (("cA" : String) == "cA") = true := by decide
  have hAB : (("cA" : String) == "cB") = false := by decide
  have hBB : (("cB" : String) == "cB") = true := by decide
  simp [collectColliders, collectPairs, pairStep, h, hsplit, exitEventsFor,
    mkBoxCollider_gameObject, mkBoxCollider_id, mkBoxCollider_isTrigger,
    handleCollisionExit, notifyScripts, List.find?, hAA, hAB, hBB]

/-- Witness for the C3 theorem: the running `demoEngine` loads the fresh
`demoScene2`; the engine ends stopped instead of restarting. -/
theorem loadScene_while_running_never_restarts_witness :
    demoEngine.isRunning = true ∧ demoEngine.currentScene = some "s1" ∧
    (demoEngine.loadScene demoScene2 16).isRunning = false ∧
    (demoEngine.loadScene demoScene2 16).animationFrameId = none ∧
    (demoEngine.loadScene demoScene2 16).currentScene = some "s2" := by
  have h := loadScene_while_running_never_restarts demoEngine demoScene2
    "s1" 16 rfl rfl
    (by
      intro sc hsc
      have h2 : sc = demoScene := by simpa [demoEngine] using hsc
      rw [h2]
      decide)
    (by decide)
  exact ⟨rfl, rfl, h.1, h.2.1, h.2.2.1⟩

/-- C4: two non-trigger box colliders on active entities, run through four
physics ticks with a fresh pair set — separated, overlapping, still
overlapping, separated again: the tick-1 and tick-3 event lists are empty,
the tick-2 list delivers exactly one `onCollisionEnter` to every script of
both owners, and the tick-4 list exactly one `onCollisionExit`; the
persistent pair set after the ticks is [], [cA_cB], [cA_cB], []. -/
theorem collision_enter_exit_exactly_once (sA sB : List String)
    (wA hA wB hB : ℚ) (pA1 pB1 pA2 pB2 pA3 pB3 pA4 pB4 : ℚ × ℚ)
    (h1 : (mkBoxCollider "cA" ⟨"goA", sA⟩ wA hA pA1).intersects
          (mkBoxCollider "cB" ⟨"goB", sB⟩ wB hB pB1) = false)
    (h2 : (mkBoxCollider "cA" ⟨"goA", sA⟩ wA hA pA2).intersects
          (mkBoxCollider "cB" ⟨"goB", sB⟩ wB hB pB2) = true)
    (h3 : (mkBoxCollider "cA" ⟨"goA", sA⟩ wA hA pA3).intersects
          (mkBoxCollider "cB" ⟨"goB", sB⟩ wB hB pB3) = true)
    (h4 : (mkBoxCollider "cA" ⟨"goA", sA⟩ wA hA pA4).intersects
          (mkBoxCollider "cB" ⟨"goB", sB⟩ wB hB pB4) = false) :
    twoBoxTick [] sA sB wA hA wB hB pA1 pB1 = ([], []) ∧
    twoBoxTick (twoBoxTick [] sA sB wA hA wB hB pA1 pB1).1
        sA sB wA hA wB hB pA2 pB2 =
      (["cA_cB"],
       (sA.map fun sc => ⟨sc, .collisionEnter, "cB"⟩) ++
       (sB.map fun sc => ⟨sc, .collisionEnter, "cA"⟩)) ∧
    twoBoxTick (twoBoxTick (twoBoxTick [] sA sB wA hA wB hB pA1 pB1).1
        sA sB wA hA wB hB pA2 pB2).1 sA sB wA hA wB hB pA3 pB3 =
      (["cA_cB"], []) ∧
    twoBoxTick (twoBoxTick (twoBoxTick (twoBoxTick []
        sA sB wA hA wB hB pA1 pB1).1 sA sB wA hA wB hB pA2 pB2).1
        sA sB wA hA wB hB pA3 pB3).1 sA sB wA hA wB hB pA4 pB4 =
      ([],
       (sA.map fun sc => ⟨sc, .collisionExit, "cB"⟩) ++
       (sB.map fun sc => ⟨sc, .collisionExit, "cA"⟩)) := by
  have t1 := twoBoxTick_sep_fresh sA sB wA hA wB hB pA1 pB1 h1
  refine ⟨t1, ?_, ?_, ?_⟩
  · rw [t1]
    exact twoBoxTick_hit_fresh sA sB wA hA wB hB pA2 pB2 h2
  · rw [t1, twoBoxTick_hit_fresh sA sB wA hA wB hB pA2 pB2 h2]
    exact twoBoxTick_hit_stay sA sB wA hA wB hB pA3 pB3 h3
  · rw [t1, twoBoxTick_hit_fresh sA sB wA hA wB hB pA2 pB2 h2,
      twoBoxTick_hit_stay sA sB wA hA wB hB pA3 pB3 h3]
    exact twoBoxTick_sep_exit sA sB wA hA wB hB pA4 pB4 h4


lemma box_intersects_eval (sA sB : List String) (wA hA wB hB : ℚ)
    (pA pB : ℚ × ℚ) :
    (mkBoxCollider "cA" ⟨"goA", sA⟩ wA hA pA).intersects
      (mkBoxCollider "cB" ⟨"goB", sB⟩ wB hB pB) =
    (decide (|pA.1 - pB.1| < wA / 2 + wB / 2) &&
     decide (|pA.2 - pB.2| < hA / 2 + hB / 2)) := by
  simp [PCollider.intersects, mkBoxCollider]

/-- Witness for the C4 theorem: 100×100 boxes, `cB` at x = 150 (apart),
then x = 50 (overlap) twice, then x = 150 again. -/
theorem collision_enter_exit_exactly_once_witness :
    twoBoxTick [] ["s1"] ["s2"] 100 100 100 100 (0, 0) (150, 0) = ([], []) ∧
    twoBoxTick (twoBoxTick [] ["s1"] ["s2"] 100 100 100 100 (0, 0) (150, 0)).1
        ["s1"] ["s2"] 100 100 100 100 (0, 0) (50, 0) =
      (["cA_cB"],
       [⟨"s1", .collisionEnter, "cB"⟩, ⟨"s2", .collisionEnter, "cA"⟩]) ∧
    twoBoxTick (twoBoxTick (twoBoxTick [] ["s1"] ["s2"] 100 100 100 100
        (0, 0) (150, 0)).1 ["s1"] ["s2"] 100 100 100 100 (0, 0) (50, 0)).1
        ["s1"] ["s2"] 100 100 100 100 (0, 0) (50, 0) = (["cA_cB"], []) ∧
    twoBoxTick (twoBoxTick (twoBoxTick (twoBoxTick [] ["s1"] ["s2"]
        100 100 100 100 (0, 0) (150, 0)).1 ["s1"] ["s2"] 100 100 100 100
        (0, 0) (50, 0)).1 ["s1"] ["s2"] 100 100 100 100 (0, 0) (50, 0)).1
        ["s1"] ["s2"] 100 100 100 100 (0, 0) (150, 0) =
      ([],
       [⟨"s1", .collisionExit, "cB"⟩, ⟨"s2", .collisionExit, "cA"⟩]) := by
  have hsep : (mkBoxCollider "cA" ⟨"goA", ["s1"]⟩ 100 100 (0, 0)).intersects
      (mkBoxCollider "cB" ⟨"goB", ["s2"]⟩ 100 100 (150, 0)) = false := by
    rw [box_intersects_eval]
    norm_num
  have hhit : (mkBoxCollider "cA" ⟨"goA", ["s1"]⟩ 100 100 (0, 0)).intersects
      (mkBoxCollider "cB" ⟨"goB", ["s2"]⟩ 100 100 (50, 0)) = true := by
    rw [box_intersects_eval]
    norm_num
  exact collision_enter_exit_exactly_once ["s1"] ["s2"] 100 100 100 100
    (0, 0) (150, 0) (0, 0) (50, 0) (0, 0) (50, 0) (0, 0) (150, 0)
    hsep hhit hhit hsep

/-- C5 counterexample: for 100×100 boxes centered at (0,0) and (50,30),
the X overlap (50) is smaller than the Y overlap (70), so a push along the
axis of least overlap would leave the Y coordinates unchanged — but the
resolver pushes along the center-to-center direction, so B's Y coordinate
strictly increases. -/
theorem resolveCollision_not_along_least_axis :
    (((100 : ℝ) / 2 + 100 / 2) - |(50 : ℝ) - 0| <
     ((100 : ℝ) / 2 + 100 / 2) - |(30 : ℝ) - 0|) ∧
    30 < (resolveCollision box100 box100 (some restBody) (some restBody)
      ⟨(0, 0)⟩ ⟨(50, 30)⟩).tB.position.2 := by
  constructor
  · norm_num
  · have hd : (0 : ℝ) < Real.sqrt ((50 - 0) * (50 - 0) + (30 - 0) * (30 - 0)) :=
      Real.sqrt_pos.mpr (by norm_num)
    have hne : Real.sqrt ((50 - 0) * (50 - 0) + (30 - 0) * (30 - 0)) ≠ 0 :=
      ne_of_gt hd
    have hov : (((100 : ℝ) / 2 + 100 / 2) - |(50 : ℝ) - 0| <
        ((100 : ℝ) / 2 + 100 / 2) - |(30 : ℝ) - 0|) := by norm_num
    have hcc : (ColliderType.box = ColliderType.circle) = False := by simp
    unfold resolveCollision
    simp only [box100, restBody, optKinematic, Option.isNone_some,
      Bool.and_self, Bool.and_false, Bool.false_and, Bool.not_false,
      Bool.and_true, Bool.true_and, if_false, Bool.false_eq_true, hne,
      ite_false, ite_true, hcc, false_and, and_false, true_and, and_true,
      eq_self_iff_true, and_self]
    norm_num [hne, hov]

/-- C5 amended: the box×box push magnitude is the smaller axis overlap but
its direction is the normalized center-to-center vector; in the spec's
concrete case — 100×100 boxes at (0,0) and (50,0), X overlap 50, Y
overlap 100 — the centers share a Y coordinate, so the push is along X
only: each non-kinematic body moves half the least overlap, A to (−25,0)
and B to (75,0). -/
theorem resolveCollision_spec_case_along_x :
    (((100 : ℝ) / 2 + 100 / 2) - |(50 : ℝ) - 0| = 50) ∧
    (((100 : ℝ) / 2 + 100 / 2) - |(0 : ℝ) - 0| = 100) ∧
    (resolveCollision box100 box100 (some restBody) (some restBody)
      ⟨(0, 0)⟩ ⟨(50, 0)⟩).tA.position = (-25, 0) ∧
    (resolveCollision box100 box100 (some restBody) (some restBody)
      ⟨(0, 0)⟩ ⟨(50, 0)⟩).tB.position = (75, 0) := by
  have hs : Real.sqrt ((50 - 0) * (50 - 0) + (0 - 0) * (0 - 0)) = 50 := by
    rw [show ((50 : ℝ) - 0) * (50 - 0) + (0 - 0) * (0 - 0) = 50 ^ 2 by norm_num]
    exact Real.sqrt_sq (by norm_num)
  have hcc : (ColliderType.box = ColliderType.circle) = False := by simp
  refine ⟨by norm_num, by norm_num, ?_, ?_⟩ <;>
  · unfold resolveCollision
    simp only [box100, restBody, optKinematic, Option.isNone_some,
      Bool.and_self, Bool.and_false, Bool.false_and, Bool.not_false,
      Bool.and_true, Bool.true_and, if_false, Bool.false_eq_true,
      ite_false, ite_true, hs, hcc, false_and, and_false, true_and,
      and_true, eq_self_iff_true, and_self]
    norm_num [Prod.ext_iff]

/-- C8 counterexample: `Transform.deserialize` with `position: 5` — a
truthy value that is not a record of two numbers — does not leave
`position` at its prior value: the truthiness guard admits it and
`position.set(undefined, undefined)` wipes the coordinates, while the
well-formed `rotation: 45` in the same record is applied and the absent
`scale` is kept. -/
theorem transform_deserialize_truthy_garbage :
    TransformJ.deserialize ⟨⟨.jnum 1, .jnum 2⟩, 0, ⟨.jnum 3, .jnum 4⟩⟩
        (.jobj [("position", .jnum 5), ("rotation", .jnum 45)]) =
      some ⟨⟨.undefined, .undefined⟩, 45, ⟨.jnum 3, .jnum 4⟩⟩ ∧
    (⟨.undefined, .undefined⟩ : JVec2) ≠ ⟨.jnum 1, .jnum 2⟩ := by
  constructor
  · have h5 : JVal.truthy (.jnum 5) = true := by simp [JVal.truthy]
    have hpos : JVal.getField
        (.jobj [("position", .jnum 5), ("rotation", .jnum 45)]) "position" =
        some (.jnum 5) := rfl
    have hrot : JVal.getField
        (.jobj [("position", .jnum 5), ("rotation", .jnum 45)]) "rotation" =
        some (.jnum 45) := rfl
    have hsc : JVal.getField
        (.jobj [("position", .jnum 5), ("rotation", .jnum 45)]) "scale" =
        some .undefined := rfl
    have hx : JVal.getField (.jnum 5) "x" = some .undefined := rfl
    have hy : JVal.getField (.jnum 5) "y" = some .undefined := rfl
    unfold TransformJ.deserialize
    rw [hpos, hrot, hsc]
    simp [h5, hx, hy, JVal.truthy, JVal.isNum, JVal.toQ, JVec2.setv]
  · intro h
    exact JVal.noConfusion (congrArg JVec2.x h)

/-- C8 amended: a `deserialize` whose data is `null` or `undefined` throws
a TypeError at its first property access, aborting the whole call; any
other input completes.  On completion, fields guarded by `typeof` checks
(`rotation`, the RigidBody scalars and flags, the Collider numbers and
`isTrigger`) are left at their prior value on a type mismatch while
well-formed fields of the same record are applied — but the fields guarded
only by truthiness (`position`, `scale`, `velocity`, `acceleration`,
`offset` and the Collider `type`) are overwritten by ANY truthy value
(absent coordinates become `undefined`); only falsy malformed entries keep
the prior value.  The three completion equations below exhibit all three
behaviours at once: the truthy vector field and the well-formed number are
applied, every other field — falsy or type-mismatched — is preserved. -/
theorem component_deserialize_field_guards
    (t : TransformJ) (r : RigidBodyJ) (c : ColliderJ)
    (dT2 dR2 dC2 : JVal) (q m w : ℚ)
    (pv px py sv vv vx vy av dv gv kv fv gsv tv hv rv ov ox oy bv : JVal)
    (hT4 : dT2.getField "position" = some pv) (hT5 : pv.truthy = true)
    (hT6 : pv.getField "x" = some px) (hT7 : pv.getField "y" = some py)
    (hT8 : dT2.getField "rotation" = some (.jnum q))
    (hT9 : dT2.getField "scale" = some sv) (hT9b : sv.truthy = false)
    (hR1 : dR2.getField "velocity" = some vv) (hR2 : vv.truthy = true)
    (hR3 : vv.getField "x" = some vx) (hR4 : vv.getField "y" = some vy)
    (hR5 : dR2.getField "acceleration" = some av) (hR5b : av.truthy = false)
    (hR6 : dR2.getField "mass" = some (.jnum m))
    (hR7 : dR2.getField "drag" = some dv) (hR7b : dv.isNum = false)
    (hR8 : dR2.getField "useGravity" = some gv) (hR8b : gv.isBool = false)
    (hR9 : dR2.getField "isKinematic" = some kv) (hR9b : kv.isBool = false)
    (hR10 : dR2.getField "freezeRotation" = some fv) (hR10b : fv.isBool = false)
    (hR11 : dR2.getField "gravityScale" = some gsv) (hR11b : gsv.isNum = false)
    (hC1 : dC2.getField "type" = some tv) (hC2 : tv.truthy = true)
    (hC3 : dC2.getField "width" = some (.jnum w))
    (hC4 : dC2.getField "height" = some hv) (hC4b : hv.isNum = false)
    (hC5 : dC2.getField "radius" = some rv) (hC5b : rv.isNum = false)
    (hC6 : dC2.getField "offset" = some ov) (hC7 : ov.truthy = true)
    (hC8 : ov.getField "x" = some ox) (hC9 : ov.getField "y" = some oy)
    (hC10 : dC2.getField "isTrigger" = some bv) (hC10b : bv.isBool = false) :
    t.deserialize .jnull = none ∧
    r.deserialize .undefined = none ∧
    c.deserialize .jnull = none ∧
    t.deserialize dT2 = some { t with position := ⟨px, py⟩, rotation := q } ∧
    r.deserialize dR2 = some { r with velocity := ⟨vx, vy⟩, mass := m } ∧
    c.deserialize dC2 = some { c with ctype := tv, width := w,
                                      offset := ⟨ox, oy⟩ } := by
  refine ⟨rfl, rfl, rfl, ?_, ?_, ?_⟩
  · unfold TransformJ.deserialize
    simp only [hT4, hT5, hT6, hT7, hT8, hT9, hT9b, Option.some_bind,
      JVal.isNum, JVal.toQ, JVec2.setv, if_true, Bool.false_eq_true,
      if_false]
  · have hm1 : (JVal.jnum m).isNum = true := rfl
    have hm2 : (JVal.jnum m).toQ = m := rfl
    unfold RigidBodyJ.deserialize
    simp only [hR1, hR2, hR3, hR4, hR5, hR5b, hR6, hR7, hR7b, hR8, hR8b,
      hR9, hR9b, hR10, hR10b, hR11, hR11b, hm1, hm2, Option.some_bind,
      JVec2.setv, if_true, Bool.false_eq_true, if_false]
  · have hw1 : (JVal.jnum w).isNum = true := rfl
    have hw2 : (JVal.jnum w).toQ = w := rfl
    unfold ColliderJ.deserialize
    simp only [hC1, hC2, hC3, hC4, hC4b, hC5, hC5b, hC6, hC7, hC8, hC9,
      hC10, hC10b, hw1, hw2, Option.some_bind, JVec2.setv, if_true,
      Bool.false_eq_true, if_false]

/-- Witness for the amended C8 theorem: null/undefined data aborts every
deserialize; `position: 5`, `velocity: "oops"`, `type: 3` and
`offset: {x: 1}` are truthy malformed values that overwrite their fields
(coordinates becoming undefined), while the well-formed `rotation`, `mass`
and `width` are applied and every other field keeps its prior value. -/
theorem component_deserialize_field_guards_witness :
    TransformJ.deserialize ⟨⟨.jnum 1, .jnum 2⟩, 0, ⟨.jnum 3, .jnum 4⟩⟩
      .jnull = none ∧
    RigidBodyJ.deserialize
      ⟨⟨.jnum 0, .jnum 0⟩, ⟨.jnum 0, .jnum 0⟩, 1, 1/10, true, false, false, 1⟩
      .undefined = none ∧
    ColliderJ.deserialize
      ⟨.jstr "box", 100, 100, 50, ⟨.jnum 0, .jnum 0⟩, false⟩ .jnull = none ∧
    TransformJ.deserialize ⟨⟨.jnum 1, .jnum 2⟩, 0, ⟨.jnum 3, .jnum 4⟩⟩
        (.jobj [("position", .jnum 5), ("rotation", .jnum 45)]) =
      some ⟨⟨.undefined, .undefined⟩, 45, ⟨.jnum 3, .jnum 4⟩⟩ ∧
    RigidBodyJ.deserialize
        ⟨⟨.jnum 0, .jnum 0⟩, ⟨.jnum 0, .jnum 0⟩, 1, 1/10, true, false, false, 1⟩
        (.jobj [("mass", .jnum 2), ("velocity", .jstr "oops")]) =
      some ⟨⟨.undefined, .undefined⟩, ⟨.jnum 0, .jnum 0⟩, 2, 1/10, true,
            false, false, 1⟩ ∧
    ColliderJ.deserialize
        ⟨.jstr "box", 100, 100, 50, ⟨.jnum 0, .jnum 0⟩, false⟩
        (.jobj [("type", .jnum 3), ("width", .jnum 7),
                ("offset", .jobj [("x", .jnum 1)])]) =
      some ⟨.jnum 3, 7, 100, 50, ⟨.jnum 1, .undefined⟩, false⟩ :=
  component_deserialize_field_guards
    ⟨⟨.jnum 1, .jnum 2⟩, 0, ⟨.jnum 3, .jnum 4⟩⟩
    ⟨⟨.jnum 0, .jnum 0⟩, ⟨.jnum 0, .jnum 0⟩, 1, 1/10, true, false, false, 1⟩
    ⟨.jstr "box", 100, 100, 50, ⟨.jnum 0, .jnum 0⟩, false⟩
    (.jobj [("position", .jnum 5), ("rotation", .jnum 45)])
    (.jobj [("mass", .jnum 2), ("velocity", .jstr "oops")])
    (.jobj [("type", .jnum 3), ("width", .jnum 7),
            ("offset", .jobj [("x", .jnum 1)])])
    45 2 7
    (.jnum 5) .undefined .undefined .undefined
    (.jstr "oops") .undefined .undefined .undefined .undefined .undefined
    .undefined .undefined .undefined
    (.jnum 3) .undefined .undefined (.jobj [("x", .jnum 1)]) (.jnum 1)
    .undefined .undefined
    rfl (by simp [JVal.truthy]) rfl rfl rfl rfl rfl
    rfl (by decide) rfl rfl rfl rfl rfl rfl rfl rfl rfl rfl rfl rfl rfl
    rfl rfl
    rfl (by simp [JVal.truthy]) rfl rfl rfl rfl rfl rfl rfl rfl rfl rfl rfl

end Crt
